import Mathlib

/-!
Verification of the ADCS rigid-body simulation core.

The Rust source is shallowly embedded over the real numbers: each Rust
struct becomes a Lean structure, each method a Lean function mirroring
the source expression for expression.  Floating-point arithmetic is
modelled by exact real arithmetic; `f32.sqrt` becomes `Real.sqrt`,
`powi(-1)` becomes `⁻¹`, `powi(-2)` becomes `(· ^ 2)⁻¹`.

Field declarations of the Rust structs additionally carry a record of
the declared floating-point width (`f32` vs `f64`), embedded as data, so
that claims about scalar precision can be settled.

Module wiring (which submodules `integrator/mod.rs` declares and which
items `lib.rs` re-exports) is embedded as lists of names taken from the
source.
-/

namespace Adcs

open Matrix

noncomputable section

/-- Declared floating-point width of a Rust field, embedded as data. -/
inductive FloatTy where
  | f32 : FloatTy
  | f64 : FloatTy
deriving DecidableEq


/-- Quaternion, from `src/quaternion.rs` (fields `w x y z`). -/
structure Quaternion where
  w : ℝ
  x : ℝ
  y : ℝ
  z : ℝ


/-- The Rust `Quaternion` struct declares its four components as `f32`
(`src/quaternion.rs`, struct fields). -/
def Quaternion.scalarTy : FloatTy := FloatTy.f32

/-- Angular velocity vector, from `src/angular_velocity.rs`. -/
structure AngularVelocity where
  x : ℝ
  y : ℝ
  z : ℝ


/-- The Rust `AngularVelocity` struct declares its components as `f64`. -/
def AngularVelocity.scalarTy : FloatTy := FloatTy.f64

/-- Torque vector, from `src/torque.rs`. -/
structure Torque where
  x : ℝ
  y : ℝ
  z : ℝ


/-- The Rust `Torque` struct declares its components as `f64`. -/
def Torque.scalarTy : FloatTy := FloatTy.f64

/-- Inertia tensor in Voigt notation, from `src/inertia.rs`. -/
structure Inertia where
  j1 : ℝ
  j2 : ℝ
  j3 : ℝ
  j4 : ℝ
  j5 : ℝ
  j6 : ℝ


/-- The Rust `Inertia` struct declares its six entries as `f64`. -/
def Inertia.scalarTy : FloatTy := FloatTy.f64

/-- `Quaternion::new`. -/
def Quaternion.new (w x y z : ℝ) : Quaternion := ⟨w, x, y, z⟩

/-- `Quaternion::unit`, the quaternion `(1, 0, 0, 0)`. -/
def Quaternion.unit : Quaternion := ⟨1, 0, 0, 0⟩

/-- `Quaternion::from_vector`: zero scalar part, given vector part. -/
def Quaternion.from_vector (x y z : ℝ) : Quaternion := ⟨0, x, y, z⟩

/-- `impl Add for Quaternion`: componentwise. -/
instance : Add Quaternion :=
  ⟨fun a b => ⟨a.w + b.w, a.x + b.x, a.y + b.y, a.z + b.z⟩⟩

/-- `impl Sub for Quaternion`: componentwise. -/
instance : Sub Quaternion :=
  ⟨fun a b => ⟨a.w - b.w, a.x - b.x, a.y - b.y, a.z - b.z⟩⟩

/-- `impl Neg for Quaternion`: componentwise. -/
instance : Neg Quaternion :=
  ⟨fun a => ⟨-a.w, -a.x, -a.y, -a.z⟩⟩

/-- `impl Mul for Quaternion`: the Hamilton product exactly as written in
`src/quaternion.rs`. -/
instance : Mul Quaternion :=
  ⟨fun p q =>
    ⟨p.w * q.w - p.x * q.x - p.y * q.y - p.z * q.z,
     p.w * q.x + q.w * p.x + p.y * q.z - p.z * q.y,
     p.w * q.y + q.w * p.y + p.z * q.x - p.x * q.z,
     p.w * q.z + q.w * p.z + p.x * q.y - p.y * q.x⟩⟩

/-- `Quaternion::norm`: `√(w² + x² + y² + z²)` (source writes the products
as `self.w * self.w + ...`). -/
def Quaternion.norm (q : Quaternion) : ℝ :=
  Real.sqrt (q.w * q.w + q.x * q.x + q.y * q.y + q.z * q.z)

/-- `Quaternion::scale`: componentwise multiply by a scalar. -/
def Quaternion.scale (q : Quaternion) (s : ℝ) : Quaternion :=
  ⟨s * q.w, s * q.x, s * q.y, s * q.z⟩

/-- `Quaternion::normalize`: `self.scale(self.norm().powi(-1))`. -/
def Quaternion.normalize (q : Quaternion) : Quaternion :=
  q.scale q.norm⁻¹

/-- `Quaternion::from_rotation`: normalize the axis, return
`(cos(θ/2), sin(θ/2)·n̂)`. -/
def Quaternion.from_rotation (angle x y z : ℝ) : Quaternion :=
  let c := Real.cos (angle / 2)
  let s := Real.sin (angle / 2)
  let a := (Quaternion.from_vector x y z).normalize
  ⟨c, s * a.x, s * a.y, s * a.z⟩

/-- The Rust `Quaternion::from_rotation` declares its `angle` argument
as `f32`. -/
def Quaternion.fromRotationAngleTy : FloatTy := FloatTy.f32

/-- `Quaternion::inv`: negate the vector part, then
`scale(self.norm().powi(-2))`. -/
def Quaternion.inv (q : Quaternion) : Quaternion :=
  (Quaternion.mk q.w (-q.x) (-q.y) (-q.z)).scale ((q.norm ^ 2)⁻¹)

/-- `Quaternion::diff`: `(self * omega).scale(0.5)` where `omega` is the
pure quaternion carrying the angular velocity. -/
def Quaternion.diff (q : Quaternion) (angular_velocity : AngularVelocity) :
    Quaternion :=
  let omega : Quaternion :=
    ⟨0, angular_velocity.x, angular_velocity.y, angular_velocity.z⟩
  (q * omega).scale 0.5

/-- `AngularVelocity::new`. -/
def AngularVelocity.new (x y z : ℝ) : AngularVelocity := ⟨x, y, z⟩

/-- `AngularVelocity::scale`. -/
def AngularVelocity.scale (v : AngularVelocity) (s : ℝ) : AngularVelocity :=
  ⟨s * v.x, s * v.y, s * v.z⟩

/-- `impl Add for AngularVelocity`. -/
instance : Add AngularVelocity :=
  ⟨fun a b => ⟨a.x + b.x, a.y + b.y, a.z + b.z⟩⟩

/-- `impl Sub for AngularVelocity`. -/
instance : Sub AngularVelocity :=
  ⟨fun a b => ⟨a.x - b.x, a.y - b.y, a.z - b.z⟩⟩

/-- `impl Neg for AngularVelocity`. -/
instance : Neg AngularVelocity :=
  ⟨fun a => ⟨-a.x, -a.y, -a.z⟩⟩

/-- `Torque::new`. -/
def Torque.new (x y z : ℝ) : Torque := ⟨x, y, z⟩

/-- `Torque::zero`. -/
def Torque.zero : Torque := ⟨0, 0, 0⟩

/-- `Torque::scale`. -/
def Torque.scale (t : Torque) (s : ℝ) : Torque :=
  ⟨s * t.x, s * t.y, s * t.z⟩

/-- `impl Add for Torque`. -/
instance : Add Torque :=
  ⟨fun a b => ⟨a.x + b.x, a.y + b.y, a.z + b.z⟩⟩

/-- `impl Sub for Torque`. -/
instance : Sub Torque :=
  ⟨fun a b => ⟨a.x - b.x, a.y - b.y, a.z - b.z⟩⟩

/-- `impl Neg for Torque`. -/
instance : Neg Torque :=
  ⟨fun a => ⟨-a.x, -a.y, -a.z⟩⟩

/-- `Inertia::new`. -/
def Inertia.new (j1 j2 j3 j4 j5 j6 : ℝ) : Inertia := ⟨j1, j2, j3, j4, j5, j6⟩

/-- `AngularVelocity::diff` from `src/angular_velocity.rs`: the Euler
rigid-body derivative, computing the angular-momentum components, the
torque-free contribution, the determinant, the six Voigt entries of the
inverse inertia, and the matrix-vector product, exactly as the source. -/
def AngularVelocity.diff (self : AngularVelocity) (inertia : Inertia)
    (torque : Torque) : AngularVelocity :=
  let hx := inertia.j1 * self.x + inertia.j6 * self.y + inertia.j5 * self.z
  let hy := inertia.j6 * self.x + inertia.j2 * self.y + inertia.j4 * self.z
  let hz := inertia.j5 * self.x + inertia.j4 * self.y + inertia.j3 * self.z
  let torque_free : Torque :=
    -(Torque.new (self.y * hz - self.z * hy) (self.z * hx - self.x * hz)
        (self.x * hy - self.y * hx))
  let det := inertia.j1 * (inertia.j2 * inertia.j3 - inertia.j4 ^ 2) +
    inertia.j6 * (inertia.j4 * inertia.j5 - inertia.j3 * inertia.j6) +
    inertia.j5 * (inertia.j4 * inertia.j6 - inertia.j2 * inertia.j5)
  let i1 := (inertia.j2 * inertia.j3 - inertia.j4 ^ 2) / det
  let i2 := (inertia.j1 * inertia.j3 - inertia.j5 ^ 2) / det
  let i3 := (inertia.j1 * inertia.j2 - inertia.j6 ^ 2) / det
  let i4 := (inertia.j5 * inertia.j6 - inertia.j1 * inertia.j4) / det
  let i5 := (inertia.j4 * inertia.j6 - inertia.j2 * inertia.j5) / det
  let i6 := (inertia.j5 * inertia.j4 - inertia.j3 * inertia.j6) / det
  let t := torque + torque_free
  ⟨i1 * t.x + i6 * t.y + i5 * t.z,
   i6 * t.x + i2 * t.y + i4 * t.z,
   i5 * t.x + i4 * t.y + i3 * t.z⟩

/-- Kane damper, from `src/damper.rs`. -/
structure KaneDamper where
  inertia : Inertia
  coefficient : ℝ
  angular_velocity : AngularVelocity


/-- The Rust `KaneDamper` struct declares `coefficient` as `f64`. -/
def KaneDamper.coefficientTy : FloatTy := FloatTy.f64

/-- `KaneDamper::new`: isotropic inertia built from a scalar, zero
initial angular velocity. -/
def KaneDamper.new (inertia coefficient : ℝ) : KaneDamper :=
  { inertia := Inertia.new inertia inertia inertia 0 0 0
    coefficient := coefficient
    angular_velocity := AngularVelocity.new 0 0 0 }

/-- Rigid-body state, from `src/state.rs`. -/
structure State where
  time : ℝ
  quaternion : Quaternion
  angular_velocity : AngularVelocity
  inertia : Inertia
  torque : Torque
  damper : Option KaneDamper


/-- The Rust `State` struct declares `time` as `f32`
(`src/state.rs`, field `pub time: f32`). -/
def State.timeTy : FloatTy := FloatTy.f32

/-- `State::new`: default attitude, zero rates and torque, no damper. -/
def State.new (inertia : Inertia) : State :=
  { quaternion := Quaternion.new 1 0 0 0
    angular_velocity := AngularVelocity.new 0 0 0
    inertia := inertia
    torque := Torque.new 0 0 0
    damper := none
    time := 0 }

/-- The default `Integrator::dynamics` from `src/integrator/mod.rs`:
derivatives of the body attitude and angular velocity and of the damper
angular velocity.  The damping torque is accumulated into the applied
torque, and the damper receives its negation. -/
def dynamics (state : State) : Quaternion × AngularVelocity × AngularVelocity :=
  let q := state.quaternion
  let w := state.angular_velocity
  match state.damper with
  | some d =>
      let wd := d.angular_velocity
      let wdiff := wd - w
      let td := (Torque.new wdiff.x wdiff.y wdiff.z).scale d.coefficient
      let t := state.torque + td
      let wddot := wd.diff d.inertia (-td)
      (q.diff w, w.diff state.inertia t, wddot)
  | none =>
      (q.diff w, w.diff state.inertia state.torque, AngularVelocity.new 0 0 0)

/-- Forward Euler integrator, from `src/integrator/forward_euler.rs`
(the Rust struct stores the step size `h: f32`). -/
structure ForwardEuler where
  h : ℝ

/-- The Rust `ForwardEuler` struct declares its step size `h` as `f32`. -/
def ForwardEuler.hTy : FloatTy := FloatTy.f32

/-- `ForwardEuler::step`: one forward Euler step, renormalizing the
attitude, updating the damper rate when present, and advancing time. -/
def ForwardEuler.step (self : ForwardEuler) (state : State) : State :=
  let dv := dynamics state
  let qdot := dv.1
  let wdot := dv.2.1
  let wddot := dv.2.2
  { state with
      quaternion := (state.quaternion + qdot.scale self.h).normalize
      angular_velocity := state.angular_velocity + wdot.scale self.h
      damper :=
        match state.damper with
        | some d =>
            some { d with
              angular_velocity := d.angular_velocity + wddot.scale self.h }
        | none => none
      time := state.time + self.h }

/-- Fourth-order Runge-Kutta integrator, from
`src/integrator/runge_kutta.rs` (the Rust struct stores `h: f32`). -/
structure RungeKutta4 where
  h : ℝ

/-- The Rust `RungeKutta4` struct declares its step size `h` as `f32`. -/
def RungeKutta4.hTy : FloatTy := FloatTy.f32

/-- The tentative-state block repeated for each intermediate RK4 stage:
clone the original state, offset attitude (renormalized), body rate and
damper rate by `f`-scaled derivatives. -/
def RungeKutta4.stage (state : State) (f : ℝ) (qdot : Quaternion)
    (wdot wddot : AngularVelocity) : State :=
  { state with
      quaternion := (state.quaternion + qdot.scale f).normalize
      angular_velocity := state.angular_velocity + wdot.scale f
      damper :=
        match state.damper with
        | some d =>
            some { d with
              angular_velocity := d.angular_velocity + wddot.scale f }
        | none => none }

/-- The second RK4 tentative state (`k2` in the source): built from the
original state and the stage-1 derivatives scaled by `0.5 * h`. -/
def RungeKutta4.k2State (self : RungeKutta4) (state : State) : State :=
  let d1 := dynamics state
  RungeKutta4.stage state (0.5 * self.h) d1.1 d1.2.1 d1.2.2

/-- The third RK4 tentative state (`k3` in the source): built from the
original state and the stage-2 derivatives scaled by `0.5 * h`. -/
def RungeKutta4.k3State (self : RungeKutta4) (state : State) : State :=
  let d2 := dynamics (self.k2State state)
  RungeKutta4.stage state (0.5 * self.h) d2.1 d2.2.1 d2.2.2

/-- The fourth RK4 tentative state (`k4` in the source): built from the
original state and the stage-3 derivatives scaled by `h`. -/
def RungeKutta4.k4State (self : RungeKutta4) (state : State) : State :=
  let d3 := dynamics (self.k3State state)
  RungeKutta4.stage state self.h d3.1 d3.2.1 d3.2.2

/-- The combined RK4 derivative
`(k1 + 2*k2 + 2*k3 + k4).scale(1/6)` for each of the three components. -/
def RungeKutta4.combined (self : RungeKutta4) (state : State) :
    Quaternion × AngularVelocity × AngularVelocity :=
  let d1 := dynamics state
  let d2 := dynamics (self.k2State state)
  let d3 := dynamics (self.k3State state)
  let d4 := dynamics (self.k4State state)
  ((d1.1 + d2.1.scale 2 + d3.1.scale 2 + d4.1).scale (1 / 6),
   (d1.2.1 + d2.2.1.scale 2 + d3.2.1.scale 2 + d4.2.1).scale (1 / 6),
   (d1.2.2 + d2.2.2.scale 2 + d3.2.2.scale 2 + d4.2.2).scale (1 / 6))

/-- `RungeKutta4::step`: four-stage Runge-Kutta step, renormalizing the
attitude, updating the damper rate when present, and advancing time. -/
def RungeKutta4.step (self : RungeKutta4) (state : State) : State :=
  let dv := self.combined state
  let qdot := dv.1
  let wdot := dv.2.1
  let wddot := dv.2.2
  { state with
      quaternion := (state.quaternion + qdot.scale self.h).normalize
      angular_velocity := state.angular_velocity + wdot.scale self.h
      damper :=
        match state.damper with
        | some d =>
            some { d with
              angular_velocity := d.angular_velocity + wddot.scale self.h }
        | none => none
      time := state.time + self.h }

/-- Submodules declared by `src/integrator/mod.rs`: the file contains the
single declaration `mod forward_euler;`. -/
def integratorModSubmodules : List String := ["forward_euler"]

/-- Items re-exported by `src/integrator/mod.rs`: the file contains the
single re-export `pub use forward_euler::ForwardEuler;`. -/
def integratorModExports : List String := ["ForwardEuler"]

/-- Items exported by the `integrators` Python module in `src/lib.rs`:
the single export `use crate::integrator::ForwardEuler;`. -/
def integratorsPyExports : List String := ["ForwardEuler"]

/-! ### Spec-side definitions (written from the specification's words,
for comparison against the embedded source) -/

/-- Spec side, §4.5: the damping torque
`τ_d = c · (Δω.x, Δω.y, Δω.z)` treated as a torque vector. -/
def dampingTorqueSpec (c : ℝ) (dw : AngularVelocity) : Torque :=
  Torque.new (c * dw.x) (c * dw.y) (c * dw.z)

/-- Spec side, §4.6: one forward Euler step as the specification words
it — `q' = normalize(q + h·q̇)`, `ω' = ω + h·ω̇`, damper rate
`ω_d + h·ω̇_d` when the damper is present, time advanced by `h`. -/
def forwardEulerSpecStep (h : ℝ) (s : State) : State :=
  let dv := dynamics s
  { time := s.time + h
    quaternion := (s.quaternion + dv.1.scale h).normalize
    angular_velocity := s.angular_velocity + dv.2.1.scale h
    inertia := s.inertia
    torque := s.torque
    damper := s.damper.map fun d =>
      { d with angular_velocity := d.angular_velocity + dv.2.2.scale h } }

/-- Spec side, §4.7: the RK4 step as the specification words it: each
tentative stage is formed from the original state with weights
`α₂ = α₃ = 0.5`, `α₄ = 1`, quaternion renormalized; the stage
derivatives combine as `(k1 + 2·k2 + 2·k3 + k4)/6`; the combined
derivative is applied as in forward Euler and time advances by `h`. -/
def rungeKutta4SpecStep (h : ℝ) (s : State) : State :=
  let k1 := dynamics s
  let s2 : State :=
    { s with
        quaternion := (s.quaternion + k1.1.scale (0.5 * h)).normalize
        angular_velocity := s.angular_velocity + k1.2.1.scale (0.5 * h)
        damper := s.damper.map fun d =>
          { d with
            angular_velocity := d.angular_velocity + k1.2.2.scale (0.5 * h) } }
  let k2 := dynamics s2
  let s3 : State :=
    { s with
        quaternion := (s.quaternion + k2.1.scale (0.5 * h)).normalize
        angular_velocity := s.angular_velocity + k2.2.1.scale (0.5 * h)
        damper := s.damper.map fun d =>
          { d with
            angular_velocity := d.angular_velocity + k2.2.2.scale (0.5 * h) } }
  let k3 := dynamics s3
  let s4 : State :=
    { s with
        quaternion := (s.quaternion + k3.1.scale h).normalize
        angular_velocity := s.angular_velocity + k3.2.1.scale h
        damper := s.damper.map fun d =>
          { d with
            angular_velocity := d.angular_velocity + k3.2.2.scale h } }
  let k4 := dynamics s4
  let qdot := (k1.1 + k2.1.scale 2 + k3.1.scale 2 + k4.1).scale (1 / 6)
  let wdot := (k1.2.1 + k2.2.1.scale 2 + k3.2.1.scale 2 + k4.2.1).scale (1 / 6)
  let wddot := (k1.2.2 + k2.2.2.scale 2 + k3.2.2.scale 2 + k4.2.2).scale (1 / 6)
  { s with
      quaternion := (s.quaternion + qdot.scale h).normalize
      angular_velocity := s.angular_velocity + wdot.scale h
      damper := s.damper.map fun d =>
        { d with angular_velocity := d.angular_velocity + wddot.scale h }
      time := s.time + h }

/-! ### Pre-normalization attitude sums (named subterms of the steps) -/

/-- The quaternion sum `q + h·q̇` that `ForwardEuler::step` forms before
renormalizing. -/
def ForwardEuler.preQuat (self : ForwardEuler) (s : State) : Quaternion :=
  s.quaternion + (dynamics s).1.scale self.h

/-- The quaternion sum the second RK4 stage forms before renormalizing. -/
def RungeKutta4.k2Pre (self : RungeKutta4) (s : State) : Quaternion :=
  s.quaternion + (dynamics s).1.scale (0.5 * self.h)

/-- The quaternion sum the third RK4 stage forms before renormalizing. -/
def RungeKutta4.k3Pre (self : RungeKutta4) (s : State) : Quaternion :=
  s.quaternion + (dynamics (self.k2State s)).1.scale (0.5 * self.h)

/-- The quaternion sum the fourth RK4 stage forms before renormalizing. -/
def RungeKutta4.k4Pre (self : RungeKutta4) (s : State) : Quaternion :=
  s.quaternion + (dynamics (self.k3State s)).1.scale self.h

/-- The quaternion sum `q + h·q̇` that `RungeKutta4::step` forms from the
combined derivative before renormalizing. -/
def RungeKutta4.finalPre (self : RungeKutta4) (s : State) : Quaternion :=
  s.quaternion + (self.combined s).1.scale self.h

/-! ### Componentwise simp lemmas for the embedded arithmetic -/

@[simp] theorem Quaternion.add_w (a b : Quaternion) : (a + b).w = a.w + b.w := rfl

@[simp] theorem Quaternion.q_add_x (a b : Quaternion) : (a + b).x = a.x + b.x := rfl

@[simp] theorem Quaternion.q_add_y (a b : Quaternion) : (a + b).y = a.y + b.y := rfl

@[simp] theorem Quaternion.q_add_z (a b : Quaternion) : (a + b).z = a.z + b.z := rfl

@[simp] theorem Quaternion.mul_w (p q : Quaternion) :
    (p * q).w = p.w * q.w - p.x * q.x - p.y * q.y - p.z * q.z := rfl

@[simp] theorem Quaternion.mul_x (p q : Quaternion) :
    (p * q).x = p.w * q.x + q.w * p.x + p.y * q.z - p.z * q.y := rfl

@[simp] theorem Quaternion.mul_y (p q : Quaternion) :
    (p * q).y = p.w * q.y + q.w * p.y + p.z * q.x - p.x * q.z := rfl

@[simp] theorem Quaternion.mul_z (p q : Quaternion) :
    (p * q).z = p.w * q.z + q.w * p.z + p.x * q.y - p.y * q.x := rfl

@[simp] theorem Quaternion.scale_w (q : Quaternion) (s : ℝ) :
    (q.scale s).w = s * q.w := rfl

@[simp] theorem Quaternion.q_scale_x (q : Quaternion) (s : ℝ) :
    (q.scale s).x = s * q.x := rfl

@[simp] theorem Quaternion.q_scale_y (q : Quaternion) (s : ℝ) :
    (q.scale s).y = s * q.y := rfl

@[simp] theorem Quaternion.q_scale_z (q : Quaternion) (s : ℝ) :
    (q.scale s).z = s * q.z := rfl

@[simp] theorem AngularVelocity.av_add_x (a b : AngularVelocity) :
    (a + b).x = a.x + b.x := rfl

@[simp] theorem AngularVelocity.av_add_y (a b : AngularVelocity) :
    (a + b).y = a.y + b.y := rfl

@[simp] theorem AngularVelocity.av_add_z (a b : AngularVelocity) :
    (a + b).z = a.z + b.z := rfl

@[simp] theorem AngularVelocity.sub_x (a b : AngularVelocity) :
    (a - b).x = a.x - b.x := rfl

@[simp] theorem AngularVelocity.sub_y (a b : AngularVelocity) :
    (a - b).y = a.y - b.y := rfl

@[simp] theorem AngularVelocity.sub_z (a b : AngularVelocity) :
    (a - b).z = a.z - b.z := rfl

@[simp] theorem AngularVelocity.av_scale_x (v : AngularVelocity) (s : ℝ) :
    (v.scale s).x = s * v.x := rfl

@[simp] theorem AngularVelocity.av_scale_y (v : AngularVelocity) (s : ℝ) :
    (v.scale s).y = s * v.y := rfl

@[simp] theorem AngularVelocity.av_scale_z (v : AngularVelocity) (s : ℝ) :
    (v.scale s).z = s * v.z := rfl

@[simp] theorem Quaternion.q_mk_add_mk (a b c d e f g k : ℝ) :
    Quaternion.mk a b c d + Quaternion.mk e f g k =
      Quaternion.mk (a + e) (b + f) (c + g) (d + k) := rfl

@[simp] theorem AngularVelocity.av_mk_add_mk (a b c d e f : ℝ) :
    AngularVelocity.mk a b c + AngularVelocity.mk d e f =
      AngularVelocity.mk (a + d) (b + e) (c + f) := rfl

@[simp] theorem Torque.t_add_x (a b : Torque) : (a + b).x = a.x + b.x := rfl

@[simp] theorem Torque.t_add_y (a b : Torque) : (a + b).y = a.y + b.y := rfl

@[simp] theorem Torque.t_add_z (a b : Torque) : (a + b).z = a.z + b.z := rfl

@[simp] theorem Torque.neg_x (a : Torque) : (-a).x = -a.x := rfl

@[simp] theorem Torque.neg_y (a : Torque) : (-a).y = -a.y := rfl

@[simp] theorem Torque.neg_z (a : Torque) : (-a).z = -a.z := rfl

@[simp] theorem Torque.t_scale_x (t : Torque) (s : ℝ) : (t.scale s).x = s * t.x := rfl

@[simp] theorem Torque.t_scale_y (t : Torque) (s : ℝ) : (t.scale s).y = s * t.y := rfl

@[simp] theorem Torque.t_scale_z (t : Torque) (s : ℝ) : (t.scale s).z = s * t.z := rfl

/-! ### Mathematical bridges (spec-side objects) -/

/-- The symmetric 3×3 matrix that the Voigt entries of an `Inertia`
denote, per the documentation of `src/inertia.rs`. -/
def Inertia.toMatrix (J : Inertia) : Matrix (Fin 3) (Fin 3) ℝ :=
  !![J.j1, J.j6, J.j5; J.j6, J.j2, J.j4; J.j5, J.j4, J.j3]

/-- View an angular velocity as a 3-vector. -/
def AngularVelocity.toVec (v : AngularVelocity) : Fin 3 → ℝ := ![v.x, v.y, v.z]

/-- View a torque as a 3-vector. -/
def Torque.toVec (t : Torque) : Fin 3 → ℝ := ![t.x, t.y, t.z]

/-- The determinant of the denoted inertia matrix equals the cofactor
expansion the source computes inside `AngularVelocity::diff`. -/
theorem Inertia.det_toMatrix (J : Inertia) :
    J.toMatrix.det =
      J.j1 * (J.j2 * J.j3 - J.j4 ^ 2) +
      J.j6 * (J.j4 * J.j5 - J.j3 * J.j6) +
      J.j5 * (J.j4 * J.j6 - J.j2 * J.j5) := by
  simp [Inertia.toMatrix, Matrix.det_fin_three]
  ring

/-! ### Norm lemmas -/

/-- The quaternion norm is nonnegative. -/
theorem Quaternion.norm_nonneg (q : Quaternion) : 0 ≤ q.norm :=
  Real.sqrt_nonneg _

/-- Scaling a quaternion scales its norm by the absolute value. -/
theorem Quaternion.norm_scale (q : Quaternion) (c : ℝ) :
    (q.scale c).norm = |c| * q.norm := by
  unfold Quaternion.norm Quaternion.scale
  rw [show c * q.w * (c * q.w) + c * q.x * (c * q.x) + c * q.y * (c * q.y) +
        c * q.z * (c * q.z) =
      c ^ 2 * (q.w * q.w + q.x * q.x + q.y * q.y + q.z * q.z) by ring,
    Real.sqrt_mul (sq_nonneg c), Real.sqrt_sq_eq_abs]

/-- A quaternion of nonzero norm normalizes to a unit-norm quaternion. -/
theorem Quaternion.norm_normalize (q : Quaternion) (h : q.norm ≠ 0) :
    q.normalize.norm = 1 := by
  rw [Quaternion.normalize, Quaternion.norm_scale, abs_inv,
    abs_of_nonneg q.norm_nonneg, inv_mul_cancel₀ h]

/-! ### Claim theorems -/

/-- C1: for every angular velocity `ω`, torque `τ` and inertia `J` with
`det(J) ≠ 0`, `AngularVelocity::diff` returns `J⁻¹ · (τ − ω × (J ω))`:
the embedded source computes `H = J ω` by the Voigt product, the
gyroscopic torque `−(ω × H)` componentwise, the determinant with the six
Voigt entries of the symmetric cofactor inverse, and applies that
inverse to `τ + τ_free`. -/
theorem C1_euler_rigid_body_derivative (ω : AngularVelocity) (J : Inertia)
    (τ : Torque) (hdet : J.toMatrix.det ≠ 0) :
    (ω.diff J τ).toVec =
      J.toMatrix⁻¹ *ᵥ
        (τ.toVec - crossProduct ω.toVec (J.toMatrix *ᵥ ω.toVec)) := by
  have hF : J.j1 * (J.j2 * J.j3 - J.j4 ^ 2) +
      J.j6 * (J.j4 * J.j5 - J.j3 * J.j6) +
      J.j5 * (J.j4 * J.j6 - J.j2 * J.j5) ≠ 0 := by
    rw [← Inertia.det_toMatrix]; exact hdet
  have key : J.toMatrix *ᵥ (ω.diff J τ).toVec =
      τ.toVec - crossProduct ω.toVec (J.toMatrix *ᵥ ω.toVec) := by
    funext i
    fin_cases i <;>
      · simp [AngularVelocity.diff, Inertia.toMatrix, AngularVelocity.toVec,
          Torque.toVec, cross_apply, Matrix.mulVec, Matrix.dotProduct,
          Fin.sum_univ_three, Torque.new]
        field_simp
        ring
  calc (ω.diff J τ).toVec
      = (J.toMatrix⁻¹ * J.toMatrix) *ᵥ (ω.diff J τ).toVec := by
        rw [Matrix.nonsing_inv_mul _ (isUnit_iff_ne_zero.mpr hdet),
          Matrix.one_mulVec]
    _ = J.toMatrix⁻¹ *ᵥ (J.toMatrix *ᵥ (ω.diff J τ).toVec) := by
        rw [Matrix.mulVec_mulVec]
    _ = J.toMatrix⁻¹ *ᵥ
          (τ.toVec - crossProduct ω.toVec (J.toMatrix *ᵥ ω.toVec)) := by
        rw [key]

/-- Witness for C1 at the identity inertia with a concrete rate and
torque. -/
theorem C1_witness :
    (Inertia.new 1 1 1 0 0 0).toMatrix.det ≠ 0 ∧
    ((AngularVelocity.new 1 2 3).diff (Inertia.new 1 1 1 0 0 0)
        (Torque.new 1 0 0)).toVec =
      (Inertia.new 1 1 1 0 0 0).toMatrix⁻¹ *ᵥ
        ((Torque.new 1 0 0).toVec -
          crossProduct (AngularVelocity.new 1 2 3).toVec
            ((Inertia.new 1 1 1 0 0 0).toMatrix *ᵥ
              (AngularVelocity.new 1 2 3).toVec)) := by
  have hdet : (Inertia.new 1 1 1 0 0 0).toMatrix.det ≠ 0 := by
    rw [Inertia.det_toMatrix]
    norm_num [Inertia.new]
  exact ⟨hdet, C1_euler_rigid_body_derivative _ _ _ hdet⟩

/-- C2: `dynamics` returns `(q̇, ω̇, ω̇_d)`.  With a damper `(J_d, c, ω_d)`
present, the damping torque `τ_d = c·(ω_d − ω)` is added to the body
torque and the damper derivative is `AngularVelocity::diff(ω_d; J_d, −τ_d)`
— the body receives `+τ_d`, the damper `−τ_d`.  Without a damper,
`ω̇_d = 0`.  In all cases `q̇ = quaternion.diff(ω)` and
`ω̇ = ω.diff(inertia, τ)` with the accumulated torque `τ`. -/
theorem C2_dynamics_damper_coupling (t : ℝ) (q : Quaternion)
    (w : AngularVelocity) (J : Inertia) (τ : Torque) :
    (∀ d : KaneDamper,
      dynamics ⟨t, q, w, J, τ, some d⟩ =
        (q.diff w,
         w.diff J
           (τ + dampingTorqueSpec d.coefficient (d.angular_velocity - w)),
         AngularVelocity.diff d.angular_velocity d.inertia
           (-(dampingTorqueSpec d.coefficient (d.angular_velocity - w))))) ∧
    dynamics ⟨t, q, w, J, τ, none⟩ =
      (q.diff w, w.diff J τ, AngularVelocity.new 0 0 0) :=
  ⟨fun _ => rfl, rfl⟩

/-- C5: `ForwardEuler::step` returns the state with quaternion
`normalize(q + h·q̇)`, angular velocity `ω + h·ω̇`, damper angular
velocity `ω_d + h·ω̇_d` when a damper is present, and time `time + h`,
where `(q̇, ω̇, ω̇_d) = dynamics(s)`. -/
theorem C5_forward_euler_step (fe : ForwardEuler) (s : State) :
    fe.step s = forwardEulerSpecStep fe.h s := by
  obtain ⟨t, q, w, J, τ, dm⟩ := s
  cases dm <;> rfl

/-- C3: `RungeKutta4::step` computes `k1 = dynamics(s)`, forms each
subsequent stage from the original state with weights
`α₂ = α₃ = 0.5`, `α₄ = 1` (quaternion renormalized), combines the
derivatives as `(k1 + 2·k2 + 2·k3 + k4)/6`, applies the combination
with the quaternion renormalized, and advances time by `h`. -/
theorem C3_runge_kutta_step (rk : RungeKutta4) (s : State) :
    rk.step s = rungeKutta4SpecStep rk.h s := by
  obtain ⟨t, q, w, J, τ, dm⟩ := s
  unfold RungeKutta4.step rungeKutta4SpecStep RungeKutta4.combined
    RungeKutta4.k4State RungeKutta4.k3State RungeKutta4.k2State
    RungeKutta4.stage
  cases dm <;> simp only [Option.map_some', Option.map_none']

/-- C10: both integrator steps leave `inertia` and `torque` unchanged,
preserve the presence of the damper, and when a damper is present
preserve its inertia and damping coefficient. -/
theorem C10_step_frame_conditions (fe : ForwardEuler) (rk : RungeKutta4)
    (s : State) :
    ((fe.step s).inertia = s.inertia ∧
     (fe.step s).torque = s.torque ∧
     (fe.step s).damper.isSome = s.damper.isSome ∧
     (fe.step s).damper.map KaneDamper.inertia =
       s.damper.map KaneDamper.inertia ∧
     (fe.step s).damper.map KaneDamper.coefficient =
       s.damper.map KaneDamper.coefficient) ∧
    ((rk.step s).inertia = s.inertia ∧
     (rk.step s).torque = s.torque ∧
     (rk.step s).damper.isSome = s.damper.isSome ∧
     (rk.step s).damper.map KaneDamper.inertia =
       s.damper.map KaneDamper.inertia ∧
     (rk.step s).damper.map KaneDamper.coefficient =
       s.damper.map KaneDamper.coefficient) := by
  obtain ⟨t, q, w, J, τ, dm⟩ := s
  cases dm <;> exact ⟨⟨rfl, rfl, rfl, rfl, rfl⟩, ⟨rfl, rfl, rfl, rfl, rfl⟩⟩

/-- C6: the claim states every scalar in the core is a 64-bit double.
The source declares the quaternion components, the `from_rotation`
angle, both integrator step sizes and the simulation time as `f32`
(single precision), while the vector and inertia scalars are `f64`. -/
theorem C6_declared_scalar_widths :
    Quaternion.scalarTy = FloatTy.f32 ∧
    Quaternion.fromRotationAngleTy = FloatTy.f32 ∧
    State.timeTy = FloatTy.f32 ∧
    ForwardEuler.hTy = FloatTy.f32 ∧
    RungeKutta4.hTy = FloatTy.f32 ∧
    AngularVelocity.scalarTy = FloatTy.f64 ∧
    Torque.scalarTy = FloatTy.f64 ∧
    Inertia.scalarTy = FloatTy.f64 ∧
    Quaternion.scalarTy ≠ FloatTy.f64 := by
  decide

/-- C8: the claim states both integrators are reachable through the
library's integrator module.  The source's `integrator/mod.rs` declares
and re-exports only `ForwardEuler`; `RungeKutta4` is neither declared as
a submodule nor re-exported, and the `integrators` Python module in
`lib.rs` exports only `ForwardEuler`. -/
theorem C8_integrator_module_exports :
    "ForwardEuler" ∈ integratorModExports ∧
    "ForwardEuler" ∈ integratorsPyExports ∧
    "RungeKutta4" ∉ integratorModExports ∧
    "RungeKutta4" ∉ integratorsPyExports ∧
    "runge_kutta" ∉ integratorModSubmodules := by
  constructor
  · simp [integratorModExports]
  constructor
  · simp [integratorsPyExports]
  refine ⟨?_, ?_, ?_⟩ <;> simp [integratorModExports, integratorsPyExports,
    integratorModSubmodules]

/-- C9: for every quaternion of norm 1, the Hamilton product `q · inv(q)`
equals the unit quaternion `(1, 0, 0, 0)` within tolerance (`1e−9`),
where `inv` negates the vector part and divides by the squared norm. -/
theorem C9_unit_quaternion_times_inverse (q : Quaternion) (h : q.norm = 1) :
    |(q * q.inv).w - Quaternion.unit.w| ≤ 1 / 10 ^ 9 ∧
    |(q * q.inv).x - Quaternion.unit.x| ≤ 1 / 10 ^ 9 ∧
    |(q * q.inv).y - Quaternion.unit.y| ≤ 1 / 10 ^ 9 ∧
    |(q * q.inv).z - Quaternion.unit.z| ≤ 1 / 10 ^ 9 := by
  have hs : q.w * q.w + q.x * q.x + q.y * q.y + q.z * q.z = 1 :=
    Real.sqrt_eq_one.mp h
  have e1 : (q * q.inv).w = 1 := by
    simp [Quaternion.inv, Quaternion.scale, h]
    linear_combination hs
  have e2 : (q * q.inv).x = 0 := by
    simp [Quaternion.inv, Quaternion.scale, h]
    ring
  have e3 : (q * q.inv).y = 0 := by
    simp [Quaternion.inv, Quaternion.scale, h]
    ring
  have e4 : (q * q.inv).z = 0 := by
    simp [Quaternion.inv, Quaternion.scale, h]
    ring
  refine ⟨?_, ?_, ?_, ?_⟩ <;>
    simp [e1, e2, e3, e4, Quaternion.unit]

/-- Witness for C9 at the concrete unit quaternion `(1, 0, 0, 0)`. -/
theorem C9_witness :
    (Quaternion.new 1 0 0 0).norm = 1 ∧
    |((Quaternion.new 1 0 0 0) * (Quaternion.new 1 0 0 0).inv).w -
        Quaternion.unit.w| ≤ 1 / 10 ^ 9 ∧
    |((Quaternion.new 1 0 0 0) * (Quaternion.new 1 0 0 0).inv).x -
        Quaternion.unit.x| ≤ 1 / 10 ^ 9 ∧
    |((Quaternion.new 1 0 0 0) * (Quaternion.new 1 0 0 0).inv).y -
        Quaternion.unit.y| ≤ 1 / 10 ^ 9 ∧
    |((Quaternion.new 1 0 0 0) * (Quaternion.new 1 0 0 0).inv).z -
        Quaternion.unit.z| ≤ 1 / 10 ^ 9 := by
  have hn : (Quaternion.new 1 0 0 0).norm = 1 := by
    simp [Quaternion.norm, Quaternion.new, Real.sqrt_one]
  exact ⟨hn, C9_unit_quaternion_times_inverse (Quaternion.new 1 0 0 0) hn⟩

/-- C7: a damper built by `KaneDamper::new(I_s, c)` has the isotropic
inertia `diag(I_s, I_s, I_s)`, for which `AngularVelocity::diff`
degenerates to `τ / I_s` componentwise (the `ω × Jω` term vanishes), so
the damper derivative computed inside `dynamics` is `−τ_d / I_s`. -/
theorem C7_isotropic_damper_derivative (Is c : ℝ) (hIs : Is ≠ 0) :
    (∀ (ωd : AngularVelocity) (τ : Torque),
      AngularVelocity.diff ωd (KaneDamper.new Is c).inertia τ =
        AngularVelocity.new (τ.x / Is) (τ.y / Is) (τ.z / Is)) ∧
    (∀ (t : ℝ) (q : Quaternion) (w ωd : AngularVelocity) (J : Inertia)
      (τb : Torque),
      (dynamics ⟨t, q, w, J, τb,
          some { KaneDamper.new Is c with angular_velocity := ωd }⟩).2.2 =
        AngularVelocity.new
          (-(dampingTorqueSpec c (ωd - w)).x / Is)
          (-(dampingTorqueSpec c (ωd - w)).y / Is)
          (-(dampingTorqueSpec c (ωd - w)).z / Is)) := by
  have main : ∀ (ωd : AngularVelocity) (τ : Torque),
      AngularVelocity.diff ωd (KaneDamper.new Is c).inertia τ =
        AngularVelocity.new (τ.x / Is) (τ.y / Is) (τ.z / Is) := by
    intro ωd τ
    unfold AngularVelocity.diff
    simp only [KaneDamper.new, Inertia.new, AngularVelocity.new,
      AngularVelocity.mk.injEq, Torque.t_add_x, Torque.t_add_y, Torque.t_add_z,
      Torque.neg_x, Torque.neg_y, Torque.neg_z, Torque.new]
    norm_num
    refine ⟨?_, ?_, ?_⟩ <;> (field_simp; ring)
  refine ⟨main, ?_⟩
  intro t q w ωd J τb
  exact main ωd (-(dampingTorqueSpec c (ωd - w)))

/-- C4: after any `step` — `ForwardEuler` or `RungeKutta4`, whenever the
updated quaternion sum is nonzero — the resulting attitude quaternion
has norm 1 within `1e−10`; every attitude update, including each
intermediate RK4 stage, is renormalized. -/
theorem C4_attitude_norm_invariant :
    (∀ (fe : ForwardEuler) (s : State), (fe.preQuat s).norm ≠ 0 →
      |((fe.step s).quaternion).norm - 1| ≤ 1 / 10 ^ 10) ∧
    (∀ (rk : RungeKutta4) (s : State), (rk.finalPre s).norm ≠ 0 →
      |((rk.step s).quaternion).norm - 1| ≤ 1 / 10 ^ 10) ∧
    (∀ (rk : RungeKutta4) (s : State), (rk.k2Pre s).norm ≠ 0 →
      |((rk.k2State s).quaternion).norm - 1| ≤ 1 / 10 ^ 10) ∧
    (∀ (rk : RungeKutta4) (s : State), (rk.k3Pre s).norm ≠ 0 →
      |((rk.k3State s).quaternion).norm - 1| ≤ 1 / 10 ^ 10) ∧
    (∀ (rk : RungeKutta4) (s : State), (rk.k4Pre s).norm ≠ 0 →
      |((rk.k4State s).quaternion).norm - 1| ≤ 1 / 10 ^ 10) := by
  refine ⟨fun fe s h => ?_, fun rk s h => ?_, fun rk s h => ?_,
    fun rk s h => ?_, fun rk s h => ?_⟩
  · have e : (fe.step s).quaternion = (fe.preQuat s).normalize := rfl
    rw [e, Quaternion.norm_normalize _ h]
    norm_num
  · have e : (rk.step s).quaternion = (rk.finalPre s).normalize := rfl
    rw [e, Quaternion.norm_normalize _ h]
    norm_num
  · have e : (rk.k2State s).quaternion = (rk.k2Pre s).normalize := rfl
    rw [e, Quaternion.norm_normalize _ h]
    norm_num
  · have e : (rk.k3State s).quaternion = (rk.k3Pre s).normalize := rfl
    rw [e, Quaternion.norm_normalize _ h]
    norm_num
  · have e : (rk.k4State s).quaternion = (rk.k4Pre s).normalize := rfl
    rw [e, Quaternion.norm_normalize _ h]
    norm_num

/-- Evaluation: the dynamics of the freshly constructed rest state is
zero in all three derivative slots. -/
theorem dynamics_rest_state :
    dynamics (State.new (Inertia.new 1 1 1 0 0 0)) =
      (Quaternion.mk 0 0 0 0, AngularVelocity.new 0 0 0,
        AngularVelocity.new 0 0 0) := by
  norm_num [dynamics, State.new, Inertia.new, Quaternion.new,
    AngularVelocity.new, Torque.new, Quaternion.diff, AngularVelocity.diff,
    Quaternion.scale, Prod.mk.injEq, Quaternion.mk.injEq,
    AngularVelocity.mk.injEq]

/-- Evaluation: the second RK4 stage of the rest state is the rest
state itself. -/
theorem k2State_rest_state :
    (RungeKutta4.mk 1).k2State (State.new (Inertia.new 1 1 1 0 0 0)) =
      State.new (Inertia.new 1 1 1 0 0 0) := by
  unfold RungeKutta4.k2State RungeKutta4.stage
  rw [dynamics_rest_state]
  norm_num [State.new, Inertia.new, Quaternion.new, AngularVelocity.new,
    Torque.new, Quaternion.normalize, Quaternion.norm, Quaternion.scale,
    AngularVelocity.scale, State.mk.injEq, Quaternion.mk.injEq,
    AngularVelocity.mk.injEq, Real.sqrt_one]

/-- Evaluation: the third RK4 stage of the rest state is the rest
state itself. -/
theorem k3State_rest_state :
    (RungeKutta4.mk 1).k3State (State.new (Inertia.new 1 1 1 0 0 0)) =
      State.new (Inertia.new 1 1 1 0 0 0) := by
  unfold RungeKutta4.k3State RungeKutta4.stage
  rw [k2State_rest_state, dynamics_rest_state]
  norm_num [State.new, Inertia.new, Quaternion.new, AngularVelocity.new,
    Torque.new, Quaternion.normalize, Quaternion.norm, Quaternion.scale,
    AngularVelocity.scale, State.mk.injEq, Quaternion.mk.injEq,
    AngularVelocity.mk.injEq, Real.sqrt_one]

/-- Evaluation: the fourth RK4 stage of the rest state is the rest
state itself. -/
theorem k4State_rest_state :
    (RungeKutta4.mk 1).k4State (State.new (Inertia.new 1 1 1 0 0 0)) =
      State.new (Inertia.new 1 1 1 0 0 0) := by
  unfold RungeKutta4.k4State RungeKutta4.stage
  rw [k3State_rest_state, dynamics_rest_state]
  norm_num [State.new, Inertia.new, Quaternion.new, AngularVelocity.new,
    Torque.new, Quaternion.normalize, Quaternion.norm, Quaternion.scale,
    AngularVelocity.scale, State.mk.injEq, Quaternion.mk.injEq,
    AngularVelocity.mk.injEq, Real.sqrt_one]

/-- Evaluation: the rest state's pre-normalization quaternion sums all
equal the unit quaternion, hence have norm 1. -/
theorem rest_state_pre_norms :
    ((ForwardEuler.mk 1).preQuat (State.new (Inertia.new 1 1 1 0 0 0))).norm
        = 1 ∧
    ((RungeKutta4.mk 1).finalPre (State.new (Inertia.new 1 1 1 0 0 0))).norm
        = 1 ∧
    ((RungeKutta4.mk 1).k2Pre (State.new (Inertia.new 1 1 1 0 0 0))).norm
        = 1 ∧
    ((RungeKutta4.mk 1).k3Pre (State.new (Inertia.new 1 1 1 0 0 0))).norm
        = 1 ∧
    ((RungeKutta4.mk 1).k4Pre (State.new (Inertia.new 1 1 1 0 0 0))).norm
        = 1 := by
  have hcomb : (RungeKutta4.mk 1).combined
      (State.new (Inertia.new 1 1 1 0 0 0)) =
      (Quaternion.mk 0 0 0 0, AngularVelocity.new 0 0 0,
        AngularVelocity.new 0 0 0) := by
    unfold RungeKutta4.combined
    rw [k2State_rest_state, k3State_rest_state, k4State_rest_state,
      dynamics_rest_state]
    norm_num [Quaternion.scale, AngularVelocity.scale, Quaternion.new,
      AngularVelocity.new, Prod.mk.injEq, Quaternion.mk.injEq,
      AngularVelocity.mk.injEq]
  refine ⟨?_, ?_, ?_, ?_, ?_⟩
  · unfold ForwardEuler.preQuat
    rw [dynamics_rest_state]
    norm_num [State.new, Inertia.new, Quaternion.new, Quaternion.scale,
      Quaternion.norm, Real.sqrt_one]
  · unfold RungeKutta4.finalPre
    rw [hcomb]
    norm_num [State.new, Inertia.new, Quaternion.new, Quaternion.scale,
      Quaternion.norm, Real.sqrt_one]
  · unfold RungeKutta4.k2Pre
    rw [dynamics_rest_state]
    norm_num [State.new, Inertia.new, Quaternion.new, Quaternion.scale,
      Quaternion.norm, Real.sqrt_one]
  · unfold RungeKutta4.k3Pre
    rw [k2State_rest_state, dynamics_rest_state]
    norm_num [State.new, Inertia.new, Quaternion.new, Quaternion.scale,
      Quaternion.norm, Real.sqrt_one]
  · unfold RungeKutta4.k4Pre
    rw [k3State_rest_state, dynamics_rest_state]
    norm_num [State.new, Inertia.new, Quaternion.new, Quaternion.scale,
      Quaternion.norm, Real.sqrt_one]

/-- Witness for C4 at step size 1 and the freshly constructed rest
state with identity inertia. -/
theorem C4_witness :
    (((ForwardEuler.mk 1).preQuat
          (State.new (Inertia.new 1 1 1 0 0 0))).norm ≠ 0 ∧
      |(((ForwardEuler.mk 1).step
          (State.new (Inertia.new 1 1 1 0 0 0))).quaternion).norm - 1| ≤
        1 / 10 ^ 10) ∧
    (((RungeKutta4.mk 1).finalPre
          (State.new (Inertia.new 1 1 1 0 0 0))).norm ≠ 0 ∧
      |(((RungeKutta4.mk 1).step
          (State.new (Inertia.new 1 1 1 0 0 0))).quaternion).norm - 1| ≤
        1 / 10 ^ 10) ∧
    (((RungeKutta4.mk 1).k2Pre
          (State.new (Inertia.new 1 1 1 0 0 0))).norm ≠ 0 ∧
      |(((RungeKutta4.mk 1).k2State
          (State.new (Inertia.new 1 1 1 0 0 0))).quaternion).norm - 1| ≤
        1 / 10 ^ 10) ∧
    (((RungeKutta4.mk 1).k3Pre
          (State.new (Inertia.new 1 1 1 0 0 0))).norm ≠ 0 ∧
      |(((RungeKutta4.mk 1).k3State
          (State.new (Inertia.new 1 1 1 0 0 0))).quaternion).norm - 1| ≤
        1 / 10 ^ 10) ∧
    (((RungeKutta4.mk 1).k4Pre
          (State.new (Inertia.new 1 1 1 0 0 0))).norm ≠ 0 ∧
      |(((RungeKutta4.mk 1).k4State
          (State.new (Inertia.new 1 1 1 0 0 0))).quaternion).norm - 1| ≤
        1 / 10 ^ 10) := by
  obtain ⟨h1, h2, h3, h4, h5⟩ := rest_state_pre_norms
  have n1 : ((ForwardEuler.mk 1).preQuat
      (State.new (Inertia.new 1 1 1 0 0 0))).norm ≠ 0 := by rw [h1]; norm_num
  have n2 : ((RungeKutta4.mk 1).finalPre
      (State.new (Inertia.new 1 1 1 0 0 0))).norm ≠ 0 := by rw [h2]; norm_num
  have n3 : ((RungeKutta4.mk 1).k2Pre
      (State.new (Inertia.new 1 1 1 0 0 0))).norm ≠ 0 := by rw [h3]; norm_num
  have n4 : ((RungeKutta4.mk 1).k3Pre
      (State.new (Inertia.new 1 1 1 0 0 0))).norm ≠ 0 := by rw [h4]; norm_num
  have n5 : ((RungeKutta4.mk 1).k4Pre
      (State.new (Inertia.new 1 1 1 0 0 0))).norm ≠ 0 := by rw [h5]; norm_num
  exact ⟨⟨n1, C4_attitude_norm_invariant.1 _ _ n1⟩,
    ⟨n2, C4_attitude_norm_invariant.2.1 _ _ n2⟩,
    ⟨n3, C4_attitude_norm_invariant.2.2.1 _ _ n3⟩,
    ⟨n4, C4_attitude_norm_invariant.2.2.2.1 _ _ n4⟩,
    ⟨n5, C4_attitude_norm_invariant.2.2.2.2 _ _ n5⟩⟩

/-- Witness for C7 at `I_s = 1`, `c = 1` with concrete rate and torque. -/
theorem C7_witness :
    ((1:ℝ) ≠ 0) ∧
    AngularVelocity.diff (AngularVelocity.new 1 2 3)
        (KaneDamper.new 1 1).inertia (Torque.new 4 5 6) =
      AngularVelocity.new ((Torque.new 4 5 6).x / 1)
        ((Torque.new 4 5 6).y / 1) ((Torque.new 4 5 6).z / 1) :=
  ⟨one_ne_zero,
    (C7_isotropic_damper_derivative 1 1 one_ne_zero).1
      (AngularVelocity.new 1 2 3) (Torque.new 4 5 6)⟩

end

end Adcs
